import Mathlib

/-
Verification of the Faizos food-delivery backend route layer.

The route handlers (adminRouter.js, customerRouter.js, restaurantRouter.js,
authRouter.js) are embedded shallowly: each HTTP handler becomes a pure Lean
function from the relevant database state (lists of documents) and request
data to a response and an updated state.  The Mongoose model files are not
part of the source tree, so the document shapes are modelled from the spec's
data-model section, keeping every field name that a handler reads or writes.
-/

namespace Faizos

/-- User document.  Modelled from the spec: the User schema file is absent
from the source; fields follow the spec's data model (firstName, lastName,
emailId, password hash, role, gender, status, lastActiveAt). -/
structure User where
  _id : Nat
  firstName : String
  lastName : String
  emailId : String
  password : String
  role : String
  gender : String
  status : String
  lastActiveAt : Int
  deriving DecidableEq

/-- Modelled from the spec: bcrypt password hashing is a black-box one-way
function; it is modelled as an injective tagging of the plaintext. -/
def hashPassword (plain : String) : String :=
  "bcrypt$" ++ plain

/-- Modelled from the spec: the User schema method validatePassword compares
a candidate plaintext against the stored hash. -/
def validatePassword (u : User) (plain : String) : Bool :=
  u.password == hashPassword plain

/-- One line item of an order, as supplied by the client. -/
structure OrderItem where
  itemId : Nat
  quantity : Nat
  deriving DecidableEq

/-- Order document.  Modelled from the spec: the Order schema file is absent
from the source.  The spec's data model lists userId, restaurantId, items,
deliveryAddressId, orderStatus, date, createdAt.  The handlers additionally
write a status key at creation (customerRouter order placement) and the
average-delivery-time aggregation reads an orderDate key; both are kept as
optional fields so every handler can be embedded as written. -/
structure Order where
  _id : Nat
  userId : Nat
  restaurantId : Nat
  items : List OrderItem
  deliveryAddressId : Nat
  status : Option String
  orderStatus : Option String
  date : Option Int
  orderDate : Option Int
  createdAt : Int
  deriving DecidableEq

/-- DeliveryAddress document.  Modelled from the spec: the DeliveryAddress
schema file is absent from the source; fields follow the spec's data model.
An absent optional string field is modelled as the empty string, matching
the falsiness checks the handlers perform. -/
structure DeliveryAddress where
  _id : Nat
  userId : Nat
  firstName : String
  lastName : String
  addressLine1 : String
  addressLine2 : String
  city : String
  state : String
  country : String
  postalCode : String
  isDefault : Bool
  deriving DecidableEq

/-- Request body for the delivery-address create routes: the seven required
fields, the optional second address line, and the isDefault flag.  A key
absent from the JSON body is modelled as the empty string (falsy in the
handlers' checks) and a missing isDefault as false. -/
structure AddressBody where
  firstName : String
  lastName : String
  addressLine1 : String
  addressLine2 : String
  city : String
  state : String
  country : String
  postalCode : String
  isDefault : Bool
  deriving DecidableEq

/-- Patch body for the customer delivery-address update route; a field is
some v exactly when the JSON body carries that key (Object.assign only
overwrites keys that are present). -/
structure AddressPatch where
  firstName : Option String
  lastName : Option String
  addressLine1 : Option String
  addressLine2 : Option String
  city : Option String
  state : Option String
  country : Option String
  postalCode : Option String
  isDefault : Option Bool
  deriving DecidableEq

/-- Result of an address create/update handler: the HTTP outcome. -/
inductive AddrResult where
  | notFound (msg : String)
  | badRequest (msg : String)
  | created (a : DeliveryAddress)
  | updated (a : DeliveryAddress)
  deriving DecidableEq

/-- The document built by new DeliveryAddress with userId from the path
user and the body fields spread over it (both the admin and the customer
create route construct it this way). -/
def mkAddress (uid : Nat) (body : AddressBody) (freshId : Nat) : DeliveryAddress :=
  { _id := freshId
    userId := uid
    firstName := body.firstName
    lastName := body.lastName
    addressLine1 := body.addressLine1
    addressLine2 := body.addressLine2
    city := body.city
    state := body.state
    country := body.country
    postalCode := body.postalCode
    isDefault := body.isDefault }

/-- DeliveryAddress.updateMany with filter userId and isDefault true and
update set isDefault false: clear the default flag on all of the user's
addresses. -/
def clearDefaults (addrs : List DeliveryAddress) (uid : Nat) : List DeliveryAddress :=
  addrs.map (fun a => if a.userId == uid && a.isDefault then { a with isDefault := false } else a)

/-- Mongoose document save for an already-persisted address: replace the
stored document carrying the same _id. -/
def saveAddr (addrs : List DeliveryAddress) (a : DeliveryAddress) : List DeliveryAddress :=
  addrs.map (fun x => if x._id == a._id then a else x)

/-- Number of the user's addresses currently flagged as default. -/
def defaultCount (uid : Nat) (addrs : List DeliveryAddress) : Nat :=
  (addrs.filter (fun a => a.userId == uid && a.isDefault)).length

/-- Number of stored addresses carrying a given _id. -/
def countIds (addrs : List DeliveryAddress) (i : Nat) : Nat :=
  (addrs.filter (fun x => x._id == i)).length

/-- customerRouter.post on /users/:userId/delivery-addresses: resolve the
path user, check the seven required body fields in order, clear the user's
existing defaults when isDefault is truthy, then save the new address. -/
def customerCreateAddress (users : List User) (addrs : List DeliveryAddress)
    (pathUserId : Nat) (body : AddressBody) (freshId : Nat) :
    AddrResult × List DeliveryAddress :=
  match users.find? (fun u => u._id == pathUserId) with
  | none => (.notFound "User not found", addrs)
  | some user =>
    if body.firstName = "" then (.badRequest "Missing required field: firstName", addrs)
    else if body.lastName = "" then (.badRequest "Missing required field: lastName", addrs)
    else if body.addressLine1 = "" then (.badRequest "Missing required field: addressLine1", addrs)
    else if body.city = "" then (.badRequest "Missing required field: city", addrs)
    else if body.state = "" then (.badRequest "Missing required field: state", addrs)
    else if body.country = "" then (.badRequest "Missing required field: country", addrs)
    else if body.postalCode = "" then (.badRequest "Missing required field: postalCode", addrs)
    else
      let addrs1 := if body.isDefault then clearDefaults addrs user._id else addrs
      let newAddress := mkAddress user._id body freshId
      (.created newAddress, addrs1 ++ [newAddress])

/-- Object.assign of the patch body onto the stored address: every key
present in the body overwrites the stored field. -/
def applyPatch (a : DeliveryAddress) (p : AddressPatch) : DeliveryAddress :=
  { a with
    firstName := p.firstName.getD a.firstName
    lastName := p.lastName.getD a.lastName
    addressLine1 := p.addressLine1.getD a.addressLine1
    addressLine2 := p.addressLine2.getD a.addressLine2
    city := p.city.getD a.city
    state := p.state.getD a.state
    country := p.country.getD a.country
    postalCode := p.postalCode.getD a.postalCode
    isDefault := p.isDefault.getD a.isDefault }

/-- customerRouter.put on /users/:userId/delivery-addresses/:addressId:
resolve the user, find the address by (_id, userId), clear the user's
defaults when the body sets isDefault truthy, assign the body over the
address and save it. -/
def customerUpdateAddress (users : List User) (addrs : List DeliveryAddress)
    (pathUserId addressId : Nat) (body : AddressPatch) :
    AddrResult × List DeliveryAddress :=
  match users.find? (fun u => u._id == pathUserId) with
  | none => (.notFound "User not found", addrs)
  | some user =>
    match addrs.find? (fun a => a._id == addressId && a.userId == user._id) with
    | none => (.notFound "Address not found", addrs)
    | some address =>
      let addrs1 := if body.isDefault = some true then clearDefaults addrs user._id else addrs
      let updatedAddr := applyPatch address body
      (.updated updatedAddr, saveAddr addrs1 updatedAddr)

/-- adminRouter.post on /users/:userId/delivery-addresses: resolve the path
user, build the new address, reject when a required field of the built
document is falsy, then save it.  No default-clearing step exists on this
route. -/
def adminCreateAddress (users : List User) (addrs : List DeliveryAddress)
    (pathUserId : Nat) (body : AddressBody) (freshId : Nat) :
    AddrResult × List DeliveryAddress :=
  match users.find? (fun u => u._id == pathUserId) with
  | none => (.notFound "User not found", addrs)
  | some user =>
    let newAddress := mkAddress user._id body freshId
    if newAddress.firstName = "" ∨ newAddress.lastName = "" ∨ newAddress.addressLine1 = "" ∨
       newAddress.city = "" ∨ newAddress.state = "" ∨ newAddress.country = "" ∨
       newAddress.postalCode = "" then
      (.badRequest "Missing required fields in request body", addrs)
    else
      (.created newAddress, addrs ++ [newAddress])

/-- Request body for customer order placement. -/
structure OrderBody where
  restaurantId : Nat
  items : List OrderItem
  deliveryAddressId : Nat
  deriving DecidableEq

/-- customerRouter.post on /orders: build a new Order bound to the
authenticated user's id, with the client-supplied restaurant, items and
address, a status key of preparing, and save it (timestamps give
createdAt).  Responds 201 with the saved order. -/
def placeOrder (orders : List Order) (authUser : User) (body : OrderBody)
    (freshId : Nat) (now : Int) : (Nat × Order) × List Order :=
  let newOrder : Order :=
    { _id := freshId
      userId := authUser._id
      restaurantId := body.restaurantId
      items := body.items
      deliveryAddressId := body.deliveryAddressId
      status := some "preparing"
      orderStatus := none
      date := none
      orderDate := none
      createdAt := now }
  ((201, newOrder), orders ++ [newOrder])

/-- customerRouter.get on /orders/history: Order.find with the
authenticated user's id. -/
def orderHistory (orders : List Order) (authUser : User) : List Order :=
  orders.filter (fun o => o.userId == authUser._id)

/-- Response of the customer order-tracking route. -/
structure TrackResp where
  code : Nat
  body : Option (Option String)
  error : Option String
  deriving DecidableEq

/-- The 404 response the tracking route sends both when the order does not
exist and when it belongs to another user. -/
def trackNotFound : TrackResp :=
  { code := 404, body := none, error := some "Order not found" }

/-- customerRouter.get on /orders/:orderId/track: find the order by id and
return its status key, unless it is absent or owned by a different user,
in which case the single 404 response is sent. -/
def trackOrder (orders : List Order) (authUserId orderId : Nat) : TrackResp :=
  match orders.find? (fun o => o._id == orderId) with
  | none => trackNotFound
  | some order =>
    if order.userId == authUserId then
      { code := 200, body := some order.status, error := none }
    else trackNotFound

/-- Mongoose document save for an already-persisted order: replace the
stored document carrying the same _id. -/
def saveOrder (orders : List Order) (o : Order) : List Order :=
  orders.map (fun x => if x._id == o._id then o else x)

/-- The middlewares of the admin route group. -/
inductive AdminMW where
  | userAuth
  | isAdmin
  deriving DecidableEq

/-- The adminRouter route table: every route with the middleware chain it
is registered with, transcribed in source order from adminRouter.js. -/
def adminRouteTable : List (String × List AdminMW) :=
  [ ("POST /login", []),
    ("POST /logout", [.userAuth, .isAdmin]),
    ("POST /register/users", [.userAuth, .isAdmin]),
    ("PATCH /users/deactivate/:userId", [.userAuth, .isAdmin]),
    ("PATCH /users/:userId", [.userAuth, .isAdmin]),
    ("POST /users/:userId/delivery-addresses", [.userAuth, .isAdmin]),
    ("PATCH /users/:userId/delivery-addresses/:addressId", [.userAuth, .isAdmin]),
    ("GET /orders", [.userAuth, .isAdmin]),
    ("GET /orders/:orderId", [.userAuth, .isAdmin]),
    ("POST /orders/:orderId/cancel", []),
    ("PATCH /orders/:orderId/reschedule", [.userAuth, .isAdmin]),
    ("GET /reports/popular-restaurants", [.userAuth, .isAdmin]),
    ("GET /reports/average-delivery-time", [.userAuth, .isAdmin]),
    ("GET /reports/order-trends", [.userAuth, .isAdmin]),
    ("GET /monitor/active-users", [.userAuth, .isAdmin]),
    ("GET /monitor/delivery-activity", [.userAuth, .isAdmin]),
    ("GET /monitor/order-statuses", [.userAuth, .isAdmin]) ]

/-- adminRouter.post on /orders/:orderId/cancel: find the order by id,
404 when absent, otherwise set its orderStatus to Cancelled and save.
The handler takes no authenticated principal: the route is registered
without userAuth or isAdmin. -/
def adminCancelOrder (orders : List Order) (orderId : Nat) : Nat × List Order :=
  match orders.find? (fun o => o._id == orderId) with
  | none => (404, orders)
  | some order => (200, saveOrder orders { order with orderStatus := some "Cancelled" })

/-- adminRouter.patch on /orders/:orderId/reschedule: find the order, set
its date to the supplied newDate and its orderStatus to Rescheduled. -/
def rescheduleOrder (orders : List Order) (orderId : Nat) (newDate : Int) :
    Nat × List Order :=
  match orders.find? (fun o => o._id == orderId) with
  | none => (404, orders)
  | some order =>
      (200, saveOrder orders { order with date := some newDate, orderStatus := some "Rescheduled" })

/-- adminRouter.patch on /users/deactivate/:userId: findByIdAndUpdate
setting status to inactive; a missing user yields the 400 error path. -/
def deactivateUser (users : List User) (userId : Nat) : Nat × List User :=
  match users.find? (fun u => u._id == userId) with
  | none => (400, users)
  | some _ => (200, users.map (fun x => if x._id == userId then { x with status := "inactive" } else x))

/-- authRouter.post on /login (the generic login path): find the user by
email, validate the password, and issue the session on success.  The
user's status field is never consulted. -/
def genericLogin (users : List User) (emailId pwd : String) : Nat :=
  match users.find? (fun u => u.emailId == emailId) with
  | none => 400
  | some user => if validatePassword user pwd then 200 else 400

/-- restaurantRouter's inline authorization helper isAdminOrRestaurant:
reject a falsy userId, then look the user up and reject unless its role is
admin or restaurant. -/
def isAdminOrRestaurant (users : List User) (userId : Option Nat) : Except String Unit :=
  match userId with
  | none => .error "User ID not found in the request"
  | some uid =>
    match users.find? (fun u => u._id == uid) with
    | none => .error "Invalid Authorization"
    | some user =>
      if user.role = "admin" ∨ user.role = "restaurant" then .ok ()
      else .error "Invalid Authorization"

/-- Request body of the restaurant order-status patch route. -/
structure PatchOrderBody where
  userId : Option Nat
  orderStatus : Option String
  deriving DecidableEq

/-- restaurantRouter.patch on /order/:orderId: the handler invokes the
async isAdminOrRestaurant gate without awaiting it, so the returned
promise is discarded and its rejection never interrupts the handler; it
then applies findByIdAndUpdate with the allow-listed orderStatus field. -/
def restaurantPatchOrder (users : List User) (orders : List Order)
    (orderId : Nat) (body : PatchOrderBody) : Nat × Option Order × List Order :=
  let _gate := isAdminOrRestaurant users body.userId
  match orders.find? (fun o => o._id == orderId) with
  | none => (404, none, orders)
  | some o =>
    let o2 := match body.orderStatus with
      | some s => if s = "" then o else { o with orderStatus := some s }
      | none => o
    (200, some o2, saveOrder orders o2)

/-- Query parameters of the admin order listing. -/
structure OrdersQuery where
  status : Option String
  startDate : Option Int
  endDate : Option Int
  page : Option Nat
  limit : Option Nat
  deriving DecidableEq

/-- The filter document the admin order listing builds: a status query
parameter matches the status field, and a createdAt range applies only
when both dates are supplied. -/
def orderQueryPred (q : OrdersQuery) (o : Order) : Bool :=
  (match q.status with
   | some s => o.status == some s
   | none => true) &&
  (match q.startDate, q.endDate with
   | some s, some e => decide (s ≤ o.createdAt) && decide (o.createdAt ≤ e)
   | _, _ => true)

/-- Response of the admin order listing. -/
structure OrdersResp where
  data : List Order
  page : Nat
  totalPages : Nat
  totalOrders : Nat
  deriving DecidableEq

/-- adminRouter.get on /orders: filter, then skip (page-1)*limit and take
limit documents, report the total count and the ceiling of count/limit as
totalPages (page defaults to 1, limit to 10).  Math.ceil of the exact
quotient of naturals is embedded as (n + limit - 1) / limit. -/
def adminGetOrders (orders : List Order) (q : OrdersQuery) : OrdersResp :=
  let page := q.page.getD 1
  let limit := q.limit.getD 10
  let matched := orders.filter (orderQueryPred q)
  { data := (matched.drop ((page - 1) * limit)).take limit
    page := page
    totalPages := (matched.length + limit - 1) / limit
    totalOrders := matched.length }

/-- The order listing that claim C8 describes, following the spec's words:
the orders whose order status (the orderStatus lifecycle field of the
spec's data model, the one cancel and reschedule write) equals the query
value. -/
def specStatusFilter (orders : List Order) (s : String) : List Order :=
  orders.filter (fun o => o.orderStatus == some s)

/-- The optional createdAt range shared by the reporting endpoints. -/
def dateRangePred (s e : Option Int) (o : Order) : Bool :=
  match s, e with
  | some a, some b => decide (a ≤ o.createdAt) && decide (o.createdAt ≤ b)
  | _, _ => true

/-- adminRouter.get on /reports/average-delivery-time: the aggregation
matches the optional createdAt range, averages toDate(orderDate) minus
toDate(createdAt) (toDate of a missing field is null, subtraction with a
null operand is null, and average ignores nulls, returning null when no
numeric value remains), and the handler divides by 1000 and 60; a null
average divided in JavaScript yields 0, and an empty match yields the
explicit 0 response. -/
def avgDeliveryTime (orders : List Order) (s e : Option Int) : Rat :=
  let matched := orders.filter (dateRangePred s e)
  let vals := matched.filterMap (fun o => o.orderDate.map (fun d => d - o.createdAt))
  if matched.isEmpty then 0
  else
    match vals with
    | [] => 0
    | vs => (((vs.foldl (· + ·) 0 : Int) : Rat) / (vs.length : Rat)) / 1000 / 60

/-- The report that claim C9 describes, following the spec's words: the
arithmetic mean, over the matched orders, of the difference between the
order's date and its creation timestamp, in minutes, and 0 when no order
matches. -/
def specAvgDeliveryTime (orders : List Order) (s e : Option Int) : Rat :=
  let matched := orders.filter (dateRangePred s e)
  let vals := matched.filterMap (fun o => o.date.map (fun d => d - o.createdAt))
  match vals with
  | [] => 0
  | vs => (((vs.foldl (· + ·) 0 : Int) : Rat) / (vs.length : Rat)) / 1000 / 60

/-
Helper lemmas about the address store operations.
-/

theorem mem_clearDefaults_pred (addrs : List DeliveryAddress) (uid : Nat) :
    ∀ a ∈ clearDefaults addrs uid, (a.userId == uid && a.isDefault) = false := by
  intro a ha
  rw [clearDefaults, List.mem_map] at ha
  obtain ⟨b, _, rfl⟩ := ha
  by_cases h : (b.userId == uid && b.isDefault) = true
  · simp [h]
  · simp only [if_neg h]
    simpa using h

theorem defaultCount_eq_zero_of (uid : Nat) (L : List DeliveryAddress)
    (h : ∀ a ∈ L, (a.userId == uid && a.isDefault) = false) :
    defaultCount uid L = 0 := by
  unfold defaultCount
  rw [List.length_eq_zero, List.filter_eq_nil_iff]
  intro a ha
  simp [h a ha]

theorem defaultCount_clearDefaults (addrs : List DeliveryAddress) (uid : Nat) :
    defaultCount uid (clearDefaults addrs uid) = 0 :=
  defaultCount_eq_zero_of uid _ (mem_clearDefaults_pred addrs uid)

theorem defaultCount_append (uid : Nat) (L1 L2 : List DeliveryAddress) :
    defaultCount uid (L1 ++ L2) = defaultCount uid L1 + defaultCount uid L2 := by
  unfold defaultCount
  rw [List.filter_append, List.length_append]

theorem clearDefaults_id (addrs : List DeliveryAddress) (uid : Nat) :
    (clearDefaults addrs uid).map (fun a => a._id) = addrs.map (fun a => a._id) := by
  unfold clearDefaults
  rw [List.map_map]
  apply List.map_congr_left
  intro a _
  by_cases h : (a.userId == uid && a.isDefault) = true
  · rw [Function.comp_apply, if_pos h]
  · rw [Function.comp_apply, if_neg h]

theorem countIds_eq (L : List DeliveryAddress) (i : Nat) :
    countIds L i = (L.map (fun a => a._id)).count i := by
  unfold countIds
  rw [List.count, List.countP_eq_length_filter, List.filter_map, List.length_map]
  rfl

theorem countIds_clearDefaults (addrs : List DeliveryAddress) (uid i : Nat) :
    countIds (clearDefaults addrs uid) i = countIds addrs i := by
  rw [countIds_eq, countIds_eq, clearDefaults_id]

theorem countIds_eq_one_of_nodup (addrs : List DeliveryAddress)
    (hnd : (addrs.map (fun a => a._id)).Nodup)
    {a : DeliveryAddress} (ha : a ∈ addrs) :
    countIds addrs a._id = 1 := by
  rw [countIds_eq]
  exact List.count_eq_one_of_mem hnd (List.mem_map_of_mem _ ha)

theorem saveAddr_eq_of_countIds_zero (L : List DeliveryAddress) (u : DeliveryAddress)
    (h : countIds L u._id = 0) : saveAddr L u = L := by
  induction L with
  | nil => rfl
  | cons x t ih =>
    unfold countIds at h
    rw [List.filter_cons] at h
    by_cases hx : (x._id == u._id) = true
    · simp [hx] at h
    · have ht : countIds t u._id = 0 := by
        unfold countIds
        simpa [hx] using h
      unfold saveAddr at *
      simp only [List.map_cons, if_neg hx]
      rw [ih ht]

theorem defaultCount_saveAddr (L : List DeliveryAddress) (u : DeliveryAddress) (uid : Nat)
    (hzero : defaultCount uid L = 0)
    (hone : countIds L u._id = 1)
    (huid : u.userId = uid) (hdef : u.isDefault = true) :
    defaultCount uid (saveAddr L u) = 1 := by
  induction L with
  | nil => simp [countIds] at hone
  | cons x t ih =>
    have hx_pred : (x.userId == uid && x.isDefault) = false ∧ defaultCount uid t = 0 := by
      unfold defaultCount at hzero ⊢
      rw [List.filter_cons] at hzero
      by_cases hx : (x.userId == uid && x.isDefault) = true
      · simp [hx] at hzero
      · constructor
        · simpa using hx
        · simpa [hx] using hzero
    by_cases hid : (x._id == u._id) = true
    · have ht0 : countIds t u._id = 0 := by
        unfold countIds at hone ⊢
        rw [List.filter_cons] at hone
        simpa [hid] using hone
      have hsave : saveAddr (x :: t) u = u :: t := by
        unfold saveAddr
        rw [List.map_cons, if_pos hid]
        have := saveAddr_eq_of_countIds_zero t u ht0
        unfold saveAddr at this
        rw [this]
      rw [hsave]
      unfold defaultCount
      rw [List.filter_cons]
      have hu : (u.userId == uid && u.isDefault) = true := by
        simp [huid, hdef]
      simp only [hu, if_pos]
      simp only [List.length_cons]
      have := hx_pred.2
      unfold defaultCount at this
      omega
    · have ht1 : countIds t u._id = 1 := by
        unfold countIds at hone ⊢
        rw [List.filter_cons] at hone
        simpa [hid] using hone
      have hsave : saveAddr (x :: t) u = x :: saveAddr t u := by
        unfold saveAddr
        rw [List.map_cons, if_neg hid]
      rw [hsave]
      unfold defaultCount
      rw [List.filter_cons]
      simp only [hx_pred.1]
      simp only [Bool.false_eq_true, if_false]
      exact ih hx_pred.2 ht1

/-
Helper lemmas about the order store operations.
-/

theorem find?_saveOrder (orders : List Order) (orderId : Nat) (order u : Order)
    (hf : orders.find? (fun o => o._id == orderId) = some order)
    (hid : u._id = order._id) :
    (saveOrder orders u).find? (fun o => o._id == orderId) = some u := by
  induction orders with
  | nil => simp at hf
  | cons x t ih =>
    rw [List.find?_cons] at hf
    by_cases hx : (x._id == orderId) = true
    · simp only [hx, cond_true, Option.some.injEq] at hf
      subst hf
      have hxu : (x._id == u._id) = true := by
        simp [hid]
      unfold saveOrder
      rw [List.map_cons, if_pos hxu, List.find?_cons]
      have h1 : x._id = orderId := by simpa using hx
      have hu : (u._id == orderId) = true := by
        simp [hid, h1]
      simp [hu]
    · simp only [hx, cond_false] at hf
      have horder : (order._id == orderId) = true := by
        have h := List.find?_some hf
        exact h
      have h1 : order._id = orderId := by simpa using horder
      have h2 : ¬ x._id = orderId := by
        intro hcontra
        simp [hcontra] at hx
      have hxu : ¬ (x._id == u._id) = true := by
        simp only [hid, h1]
        simpa using h2
      unfold saveOrder
      rw [List.map_cons, if_neg hxu, List.find?_cons]
      simp only [hx, cond_false]
      exact ih hf

theorem saveOrder_idem (L : List Order) (u : Order) :
    saveOrder (saveOrder L u) u = saveOrder L u := by
  unfold saveOrder
  rw [List.map_map]
  apply List.map_congr_left
  intro x _
  rw [Function.comp_apply]
  by_cases h : (x._id == u._id) = true
  · rw [if_pos h]
    have hu : (u._id == u._id) = true := by simp
    rw [if_pos hu]
  · rw [if_neg h, if_neg h]

/-
Concrete fixtures used by witnesses and counterexamples.
-/

/-- A registered customer used by the concrete scenarios. -/
def demoUser : User :=
  { _id := 1, firstName := "Mohd", lastName := "Faiz", emailId := "a@x.com",
    password := hashPassword "pw", role := "customer", gender := "male",
    status := "active", lastActiveAt := 0 }

/-- A registered restaurant-role user used by the concrete scenarios. -/
def demoRestUser : User :=
  { _id := 2, firstName := "Rest", lastName := "Owner", emailId := "r@x.com",
    password := hashPassword "pw2", role := "restaurant", gender := "male",
    status := "active", lastActiveAt := 0 }

/-- A concrete order-placement body. -/
def demoOrderBody : OrderBody :=
  { restaurantId := 7, items := [{ itemId := 3, quantity := 2 }], deliveryAddressId := 5 }

/-- The order the customer order-placement handler saves for demoUser. -/
def demoPlacedOrder : Order := (placeOrder [] demoUser demoOrderBody 1 0).1.2

/-- Order store after demoUser places one order at time 0. -/
def demoPlaced : List Order := (placeOrder [] demoUser demoOrderBody 1 0).2

/-- Order store after that order is cancelled through the admin route. -/
def demoCancelled : List Order := (adminCancelOrder demoPlaced 1).2

/-- Order store after that order is rescheduled to 3600000 ms (60 minutes
after its creation time 0). -/
def demoRescheduled : List Order := (rescheduleOrder demoPlaced 1 3600000).2

/-- A stored delivery address of demoUser already flagged as default. -/
def demoDefaultAddr : DeliveryAddress :=
  { _id := 1, userId := 1, firstName := "Mohd", lastName := "Faiz",
    addressLine1 := "12 Main Road", addressLine2 := "", city := "Lucknow",
    state := "UP", country := "India", postalCode := "226010", isDefault := true }

/-- A complete address body with isDefault set. -/
def demoAddrBody : AddressBody :=
  { firstName := "Mohd", lastName := "Faiz", addressLine1 := "34 Park Lane",
    addressLine2 := "", city := "Lucknow", state := "UP", country := "India",
    postalCode := "226011", isDefault := true }

/-- A patch body that only sets isDefault. -/
def demoAddrPatch : AddressPatch :=
  { firstName := none, lastName := none, addressLine1 := none, addressLine2 := none,
    city := none, state := none, country := none, postalCode := none,
    isDefault := some true }

/-
Claim theorems.
-/

/-- C2: the customer order-placement handler responds 201 with an order
bound to the authenticated user's id whose status is saved as preparing,
and that order is returned by the order-history handler for that user. -/
theorem place_order_preparing_and_in_history :
    ∀ (orders : List Order) (u : User) (body : OrderBody) (freshId : Nat) (now : Int),
      (placeOrder orders u body freshId now).1.1 = 201 ∧
      ((placeOrder orders u body freshId now).1.2).userId = u._id ∧
      ((placeOrder orders u body freshId now).1.2).status = some "preparing" ∧
      (placeOrder orders u body freshId now).1.2
        ∈ orderHistory ((placeOrder orders u body freshId now).2) u := by
  intro orders u body freshId now
  refine ⟨rfl, rfl, rfl, ?_⟩
  unfold placeOrder orderHistory
  simp [List.mem_filter]

/-- C7: order tracking returns the order's status exactly when the order
exists and belongs to the requester; a missing order and a foreign order
produce the identical NotFound response, and no response is ever a
Forbidden one (every response is the 200 or that same 404). -/
theorem track_order_owner_only :
    ∀ (orders : List Order) (uid oid : Nat),
      (∀ o, orders.find? (fun x => x._id == oid) = some o → o.userId = uid →
        trackOrder orders uid oid = { code := 200, body := some o.status, error := none }) ∧
      (orders.find? (fun x => x._id == oid) = none →
        trackOrder orders uid oid = trackNotFound) ∧
      (∀ o, orders.find? (fun x => x._id == oid) = some o → o.userId ≠ uid →
        trackOrder orders uid oid = trackNotFound) ∧
      ((trackOrder orders uid oid).code = 200 ∨ trackOrder orders uid oid = trackNotFound) := by
  intro orders uid oid
  refine ⟨?_, ?_, ?_, ?_⟩
  · intro o hf ho
    simp [trackOrder, hf, ho]
  · intro hf
    simp [trackOrder, hf]
  · intro o hf ho
    simp [trackOrder, hf, ho]
  · cases hf : orders.find? (fun x => x._id == oid) with
    | none =>
      right
      simp [trackOrder, hf]
    | some o =>
      by_cases h : o.userId = uid
      · left
        simp [trackOrder, hf, h]
      · right
        simp [trackOrder, hf, h]

/-- Witness for C7 at concrete inputs: the owner sees the status, a
different user gets the NotFound response. -/
theorem track_order_owner_only_witness :
    trackOrder demoPlaced 1 1 = { code := 200, body := some (some "preparing"), error := none } ∧
    trackOrder demoPlaced 9 1 = trackNotFound := by
  constructor
  · exact (track_order_owner_only demoPlaced 1 1).1 demoPlacedOrder (by decide) (by decide)
  · exact (track_order_owner_only demoPlaced 9 1).2.2.1 demoPlacedOrder (by decide) (by decide)

/-- C3: the admin order-cancellation route is registered with an empty
middleware chain (neither userAuth nor isAdmin), its handler takes no
authenticated principal, every request naming an existing order is
cancelled with a 200 response, and the handler only ever answers 200 or
404 — never an Unauthenticated or Unauthorized error. -/
theorem admin_cancel_unauthenticated :
    (List.lookup "POST /orders/:orderId/cancel" adminRouteTable = some []) ∧
    (∀ (orders : List Order) (oid : Nat) (order : Order),
       orders.find? (fun o => o._id == oid) = some order →
       (adminCancelOrder orders oid).1 = 200 ∧
       (((adminCancelOrder orders oid).2.find? (fun o => o._id == oid)).map
          (fun o => o.orderStatus) = some (some "Cancelled"))) ∧
    (∀ (orders : List Order) (oid : Nat),
       (adminCancelOrder orders oid).1 = 200 ∨ (adminCancelOrder orders oid).1 = 404) := by
  refine ⟨by decide, ?_, ?_⟩
  · intro orders oid order hf
    have hcancel : adminCancelOrder orders oid
        = (200, saveOrder orders { order with orderStatus := some "Cancelled" }) := by
      unfold adminCancelOrder
      rw [hf]
    have hfind : (saveOrder orders { order with orderStatus := some "Cancelled" }).find?
        (fun o => o._id == oid) = some { order with orderStatus := some "Cancelled" } :=
      find?_saveOrder orders oid order _ hf rfl
    rw [hcancel]
    refine ⟨rfl, ?_⟩
    rw [show ((200, saveOrder orders { order with orderStatus := some "Cancelled" }).2)
      = saveOrder orders { order with orderStatus := some "Cancelled" } from rfl, hfind]
    rfl
  · intro orders oid
    unfold adminCancelOrder
    cases hf : orders.find? (fun o => o._id == oid) with
    | none => right; rfl
    | some o => left; rfl

/-- Witness for C3: the one stored order is cancelled with a 200 response
without any principal. -/
theorem admin_cancel_unauthenticated_witness :
    (adminCancelOrder demoPlaced 1).1 = 200 :=
  (admin_cancel_unauthenticated.2.1 demoPlaced 1 demoPlacedOrder (by decide)).1

/-- C5: cancelling an existing order sets its orderStatus to Cancelled
whatever its prior status was, and the operation is idempotent: a second
cancel returns the same 200 response and leaves the state of the first
cancel unchanged. -/
theorem admin_cancel_idempotent :
    ∀ (orders : List Order) (oid : Nat) (order : Order),
      orders.find? (fun o => o._id == oid) = some order →
      (((adminCancelOrder orders oid).2.find? (fun o => o._id == oid)).map
         (fun o => o.orderStatus) = some (some "Cancelled")) ∧
      adminCancelOrder ((adminCancelOrder orders oid).2) oid
        = (200, (adminCancelOrder orders oid).2) := by
  intro orders oid order hf
  have hcancel : adminCancelOrder orders oid
      = (200, saveOrder orders { order with orderStatus := some "Cancelled" }) := by
    unfold adminCancelOrder
    rw [hf]
  have hfind : (saveOrder orders { order with orderStatus := some "Cancelled" }).find?
      (fun o => o._id == oid) = some { order with orderStatus := some "Cancelled" } :=
    find?_saveOrder orders oid order _ hf rfl
  constructor
  · rw [hcancel]
    rw [show ((200, saveOrder orders { order with orderStatus := some "Cancelled" }).2)
      = saveOrder orders { order with orderStatus := some "Cancelled" } from rfl, hfind]
    rfl
  · rw [hcancel]
    show adminCancelOrder (saveOrder orders { order with orderStatus := some "Cancelled" }) oid
      = (200, saveOrder orders { order with orderStatus := some "Cancelled" })
    simp only [adminCancelOrder, hfind]
    show (200, saveOrder (saveOrder orders { order with orderStatus := some "Cancelled" })
        { order with orderStatus := some "Cancelled" })
      = (200, saveOrder orders { order with orderStatus := some "Cancelled" })
    rw [saveOrder_idem]

/-- Witness for C5: cancelling the stored order once marks it Cancelled
and a second cancel is a no-op on the state. -/
theorem admin_cancel_idempotent_witness :
    (((adminCancelOrder demoPlaced 1).2.find? (fun o => o._id == 1)).map
       (fun o => o.orderStatus) = some (some "Cancelled")) ∧
    adminCancelOrder ((adminCancelOrder demoPlaced 1).2) 1
      = (200, (adminCancelOrder demoPlaced 1).2) :=
  admin_cancel_idempotent demoPlaced 1 demoPlacedOrder (by decide)

/-- C6: the code evaluated at the failing input — after the admin
deactivation handler marks the user inactive, the generic login path
still answers 200 for that user's correct credentials, because it checks
only the email and the password and never the status field. -/
theorem deactivated_user_generic_login_succeeds :
    (deactivateUser [demoUser] 1).1 = 200 ∧
    (((deactivateUser [demoUser] 1).2.find? (fun u => u._id == 1)).map
       (fun u => u.status) = some "inactive") ∧
    genericLogin ((deactivateUser [demoUser] 1).2) "a@x.com" "pw" = 200 := by
  refine ⟨rfl, by decide, by decide⟩

/-- C4: the restaurant order-status patch handler's response and state
update are identical whatever user store and whatever userId the request
supplies — the isAdminOrRestaurant gate, invoked without being awaited,
has no influence — even though the gate itself does reject an unknown or
missing userId. -/
theorem restaurant_patch_ignores_gate :
    (∀ (users1 users2 : List User) (orders : List Order) (oid : Nat) (b1 b2 : PatchOrderBody),
       b1.orderStatus = b2.orderStatus →
       restaurantPatchOrder users1 orders oid b1 = restaurantPatchOrder users2 orders oid b2) ∧
    isAdminOrRestaurant [] (some 5) = .error "Invalid Authorization" ∧
    (∀ users : List User, isAdminOrRestaurant users none = .error "User ID not found in the request") := by
  refine ⟨?_, rfl, fun users => rfl⟩
  intro users1 users2 orders oid b1 b2 h
  simp only [restaurantPatchOrder]
  rw [h]

/-- Witness for C4: a store containing a restaurant-role user passing the
gate and an empty store failing it produce the same patch outcome. -/
theorem restaurant_patch_ignores_gate_witness :
    restaurantPatchOrder [demoRestUser] demoPlaced 1
        { userId := some 2, orderStatus := some "Completed" }
      = restaurantPatchOrder [] demoPlaced 1
        { userId := none, orderStatus := some "Completed" } :=
  restaurant_patch_ignores_gate.1 [demoRestUser] [] demoPlaced 1 _ _ rfl

/-- C1: both customer delivery-address operations invoked with
isDefault true leave exactly one default address for the user: the create
handler first clears every default of that user and then saves the new
address as the default, and the update handler clears the defaults and
saves the patched address as the default (address ids are unique, _id
being the primary key). -/
theorem customer_address_single_default :
    (∀ (users : List User) (addrs : List DeliveryAddress) (uid : Nat) (body : AddressBody)
       (freshId : Nat) (user : User),
       users.find? (fun u => u._id == uid) = some user →
       body.isDefault = true →
       body.firstName ≠ "" → body.lastName ≠ "" → body.addressLine1 ≠ "" → body.city ≠ "" →
       body.state ≠ "" → body.country ≠ "" → body.postalCode ≠ "" →
       customerCreateAddress users addrs uid body freshId
         = (.created (mkAddress user._id body freshId),
            clearDefaults addrs user._id ++ [mkAddress user._id body freshId]) ∧
       defaultCount user._id (customerCreateAddress users addrs uid body freshId).2 = 1) ∧
    (∀ (users : List User) (addrs : List DeliveryAddress) (uid aid : Nat) (body : AddressPatch)
       (user : User) (address : DeliveryAddress),
       (addrs.map (fun a => a._id)).Nodup →
       users.find? (fun u => u._id == uid) = some user →
       addrs.find? (fun a => a._id == aid && a.userId == user._id) = some address →
       body.isDefault = some true →
       defaultCount user._id (customerUpdateAddress users addrs uid aid body).2 = 1) := by
  constructor
  · intro users addrs uid body freshId user hu hdef h1 h2 h3 h4 h5 h6 h7
    have heq : customerCreateAddress users addrs uid body freshId
        = (.created (mkAddress user._id body freshId),
           clearDefaults addrs user._id ++ [mkAddress user._id body freshId]) := by
      simp [customerCreateAddress, hu, h1, h2, h3, h4, h5, h6, h7, hdef]
    refine ⟨heq, ?_⟩
    rw [heq]
    show defaultCount user._id (clearDefaults addrs user._id ++ [mkAddress user._id body freshId]) = 1
    rw [defaultCount_append, defaultCount_clearDefaults]
    simp [defaultCount, mkAddress, hdef]
  · intro users addrs uid aid body user address hnd hu hf hdef
    have hmem := List.mem_of_find?_eq_some hf
    have hpred : (address._id == aid && address.userId == user._id) = true := by
      have h := List.find?_some hf
      exact h
    rw [Bool.and_eq_true] at hpred
    have hid : address._id = aid := by simpa using hpred.1
    have huid : address.userId = user._id := by simpa using hpred.2
    have hstate : (customerUpdateAddress users addrs uid aid body).2
        = saveAddr (clearDefaults addrs user._id) (applyPatch address body) := by
      simp [customerUpdateAddress, hu, hf, hdef]
    rw [hstate]
    apply defaultCount_saveAddr
    · exact defaultCount_clearDefaults addrs user._id
    · have hidp : (applyPatch address body)._id = address._id := rfl
      rw [hidp, countIds_clearDefaults]
      exact countIds_eq_one_of_nodup addrs hnd hmem
    · show address.userId = user._id
      exact huid
    · show body.isDefault.getD address.isDefault = true
      rw [hdef]
      rfl

/-- Witness for C1: with one stored default address, creating a second
default via the customer route leaves one default, and patching the
stored address with isDefault true also leaves one default. -/
theorem customer_address_single_default_witness :
    defaultCount 1 (customerCreateAddress [demoUser] [demoDefaultAddr] 1 demoAddrBody 2).2 = 1 ∧
    defaultCount 1 (customerUpdateAddress [demoUser] [demoDefaultAddr] 1 1 demoAddrPatch).2 = 1 := by
  constructor
  · exact (customer_address_single_default.1 [demoUser] [demoDefaultAddr] 1 demoAddrBody 2 demoUser
      (by decide) (by decide) (by decide) (by decide) (by decide) (by decide) (by decide)
      (by decide) (by decide)).2
  · exact customer_address_single_default.2 [demoUser] [demoDefaultAddr] 1 1 demoAddrPatch demoUser
      demoDefaultAddr (by decide) (by decide) (by decide) (by decide)

/-- C10: the admin delivery-address create handler appends the new
address carrying exactly the isDefault value of the request body without
any default-clearing step, so a user who already has a default address
ends up with two defaults when a second default is created through the
admin route, while the customer route on the same state leaves one. -/
theorem admin_address_create_skips_default_clearing :
    (∀ (users : List User) (addrs : List DeliveryAddress) (uid : Nat) (body : AddressBody)
       (freshId : Nat) (user : User),
       users.find? (fun u => u._id == uid) = some user →
       body.firstName ≠ "" → body.lastName ≠ "" → body.addressLine1 ≠ "" → body.city ≠ "" →
       body.state ≠ "" → body.country ≠ "" → body.postalCode ≠ "" →
       adminCreateAddress users addrs uid body freshId
         = (.created (mkAddress user._id body freshId),
            addrs ++ [mkAddress user._id body freshId]) ∧
       (mkAddress user._id body freshId).isDefault = body.isDefault) ∧
    defaultCount 1 (adminCreateAddress [demoUser] [demoDefaultAddr] 1 demoAddrBody 2).2 = 2 ∧
    defaultCount 1 (customerCreateAddress [demoUser] [demoDefaultAddr] 1 demoAddrBody 2).2 = 1 := by
  refine ⟨?_, by decide, by decide⟩
  intro users addrs uid body freshId user hu h1 h2 h3 h4 h5 h6 h7
  refine ⟨?_, rfl⟩
  simp [adminCreateAddress, hu, mkAddress, h1, h2, h3, h4, h5, h6, h7]

/-- Witness for C10: the universal part evaluated on the concrete state
with one stored default address. -/
theorem admin_address_create_skips_default_clearing_witness :
    adminCreateAddress [demoUser] [demoDefaultAddr] 1 demoAddrBody 2
      = (.created (mkAddress 1 demoAddrBody 2), [demoDefaultAddr] ++ [mkAddress 1 demoAddrBody 2]) :=
  (admin_address_create_skips_default_clearing.1 [demoUser] [demoDefaultAddr] 1 demoAddrBody 2
    demoUser (by decide) (by decide) (by decide) (by decide) (by decide) (by decide) (by decide)
    (by decide)).1

theorem ceil_div_bounds (n l : Nat) (hl : 0 < l) :
    n ≤ ((n + l - 1) / l) * l ∧ ((n + l - 1) / l) * l < n + l := by
  obtain ⟨m, rfl⟩ : ∃ m, l = m + 1 := ⟨l - 1, by omega⟩
  have hsub : n + (m + 1) - 1 = n + m := by omega
  rw [hsub]
  have hq : ((n + m) / (m + 1)) * (m + 1) = (m + 1) * ((n + m) / (m + 1)) :=
    Nat.mul_comm _ _
  rw [hq]
  have hdm := Nat.div_add_mod (n + m) (m + 1)
  have hB : (n + m) % (m + 1) ≤ m := by
    have := Nat.mod_lt (n + m) (show 0 < m + 1 by omega)
    omega
  constructor
  · have hle : n + m ≤ (m + 1) * ((n + m) / (m + 1)) + m :=
      calc n + m = (m + 1) * ((n + m) / (m + 1)) + (n + m) % (m + 1) := hdm.symm
        _ ≤ (m + 1) * ((n + m) / (m + 1)) + m := Nat.add_le_add_left hB _
    exact Nat.le_of_add_le_add_right hle
  · calc (m + 1) * ((n + m) / (m + 1))
        ≤ (m + 1) * ((n + m) / (m + 1)) + (n + m) % (m + 1) := Nat.le_add_right _ _
      _ = n + m := hdm
      _ < n + (m + 1) := by omega

/-- C8 counterexample: listing with a status query of Cancelled, on the
store holding the one order that was placed and then cancelled through
the admin route, returns no order, although that order's orderStatus —
the order-status field of the spec's data model — is Cancelled: the
filter compares the query against the status key written at creation,
which cancellation does not touch. -/
theorem admin_orders_filter_misses_cancelled :
    (adminGetOrders demoCancelled
       { status := some "Cancelled", startDate := none, endDate := none,
         page := none, limit := none }).data = [] ∧
    specStatusFilter demoCancelled "Cancelled" ≠ [] := by
  constructor
  · decide
  · decide

/-- C8 amended: the admin order listing returns exactly the orders whose
status key — the value written at order placement, distinct from the
orderStatus field that cancel and reschedule write — equals the status
query parameter, restricted to the createdAt range when both dates are
supplied, paginated by page and limit, with totalOrders the matching
count and totalPages the ceiling of that count divided by limit. -/
theorem admin_orders_listing_amended :
    ∀ (orders : List Order) (q : OrdersQuery),
      0 < q.limit.getD 10 →
      (adminGetOrders orders q).data
        = ((orders.filter (orderQueryPred q)).drop
            ((q.page.getD 1 - 1) * q.limit.getD 10)).take (q.limit.getD 10) ∧
      (adminGetOrders orders q).totalOrders = (orders.filter (orderQueryPred q)).length ∧
      (orders.filter (orderQueryPred q)).length
        ≤ (adminGetOrders orders q).totalPages * q.limit.getD 10 ∧
      (adminGetOrders orders q).totalPages * q.limit.getD 10
        < (orders.filter (orderQueryPred q)).length + q.limit.getD 10 ∧
      (∀ o ∈ (adminGetOrders orders q).data, o ∈ orders ∧ orderQueryPred q o = true) := by
  intro orders q hl
  have hTP : (adminGetOrders orders q).totalPages
      = ((orders.filter (orderQueryPred q)).length + q.limit.getD 10 - 1) / q.limit.getD 10 := rfl
  refine ⟨rfl, rfl, ?_, ?_, ?_⟩
  · rw [hTP]
    exact (ceil_div_bounds (orders.filter (orderQueryPred q)).length (q.limit.getD 10) hl).1
  · rw [hTP]
    exact (ceil_div_bounds (orders.filter (orderQueryPred q)).length (q.limit.getD 10) hl).2
  · intro o ho
    have ho' : o ∈ ((orders.filter (orderQueryPred q)).drop
        ((q.page.getD 1 - 1) * q.limit.getD 10)).take (q.limit.getD 10) := ho
    have h1 : o ∈ orders.filter (orderQueryPred q) :=
      List.mem_of_mem_drop (List.mem_of_mem_take ho')
    rw [List.mem_filter] at h1
    exact h1

/-- Witness for C8's amended statement at a concrete query. -/
theorem admin_orders_listing_amended_witness :
    (adminGetOrders demoCancelled
       { status := some "preparing", startDate := none, endDate := none,
         page := none, limit := none }).data
      = ((demoCancelled.filter (orderQueryPred
           { status := some "preparing", startDate := none, endDate := none,
             page := none, limit := none })).drop 0).take 10 :=
  (admin_orders_listing_amended demoCancelled
    { status := some "preparing", startDate := none, endDate := none,
      page := none, limit := none } (by decide)).1

/-- C9: the code evaluated at the failing input — with the single order
placed at time 0 and rescheduled to 3600000 ms, the average-delivery-time
report answers 0, while the computation the claim describes (mean of the
order's date minus its creation timestamp, in minutes) gives 60: the
aggregation reads the orderDate field, which no route ever writes (every
order in the store has orderDate none), so the average receives only
nulls. -/
theorem avg_delivery_time_reads_unset_field :
    avgDeliveryTime demoRescheduled none none = 0 ∧
    specAvgDeliveryTime demoRescheduled none none = 60 ∧
    (∀ o ∈ demoRescheduled, o.orderDate = none ∧ o.date = some 3600000) := by
  have hd : demoRescheduled
      = [{ _id := 1, userId := 1, restaurantId := 7, items := [{ itemId := 3, quantity := 2 }],
           deliveryAddressId := 5, status := some "preparing", orderStatus := some "Rescheduled",
           date := some 3600000, orderDate := none, createdAt := 0 }] := by decide
  refine ⟨?_, ?_, by decide⟩
  · rw [hd]
    rfl
  · rw [hd]
    norm_num [specAvgDeliveryTime, dateRangePred, List.filterMap_cons, List.foldl_cons,
      List.foldl_nil, Option.map_some]

end Faizos
